import Mathlib

/-!
# Verification of the blog application (`main.py`, `forms.py`)

A shallow embedding of the Flask blog application: the relational state
(users, blog posts, comments) becomes a record of lists, each request
handler becomes a pure function from the state, the session and the
submitted form to a result record (new state, response, flash messages,
new session).  The password-hashing library (werkzeug) and the wtforms
`Email`/`URL` validators are external libraries; they are modelled from
the spec where noted.
-/

namespace Blog

/-- A row of the `users` table (`User` in `main.py`): numeric primary key,
unique email, hashed password (stored as a string), display name. -/
structure User where
  id : Nat
  email : String
  password : String
  name : String
deriving DecidableEq, Repr

/-- A row of the `blog_posts` table (`BlogPost` in `main.py`). -/
structure BlogPost where
  id : Nat
  author_id : Nat
  title : String
  subtitle : String
  date : String
  body : String
  img_url : String
deriving DecidableEq, Repr

/-- A row of the `comments` table (`Comment` in `main.py`); `post_id` is a
nullable foreign key (`parent_post=None` stores NULL). -/
structure Comment where
  id : Nat
  author_id : Nat
  post_id : Option Nat
  text : String
deriving DecidableEq, Repr

/-- The relational store: the three tables of the schema. -/
structure DB where
  users : List User
  posts : List BlogPost
  comments : List Comment
deriving DecidableEq, Repr

/-- The response a handler produces: a rendered template, a redirect to a
named endpoint (`redirect(url_for(...))`), an HTTP error (`abort(403)`),
or an unhandled exception escaping the handler. -/
inductive Response where
  | render (template : String)
  | redirectTo (endpoint : String)
  | httpError (code : Nat)
  | exception (msg : String)
deriving DecidableEq, Repr

/-- Result of one request: the state after the handler's commits, the
response, the flash messages emitted, and the session after the request
(`login_user` replaces it). -/
structure HResult where
  db : DB
  response : Response
  flashes : List String
  session : Option Nat
deriving DecidableEq, Repr

/-- Next autoincrement primary key for a table whose rows carry `ids`. -/
def nextId (ids : List Nat) : Nat := ids.foldr max 0 + 1

/-! ## Password hashing (werkzeug), modelled from the spec -/

/-- The werkzeug method tag prefixed to every stored hash. -/
def methodTag : String := "pbkdf2:sha256"

/-- Fuel-driven decimal digit expansion (most significant digit first). -/
def digitsAux : Nat → Nat → List Char
  | 0, _ => []
  | fuel + 1, n => if n = 0 then [] else digitsAux fuel (n / 10) ++ [Char.ofNat (48 + n % 10)]

/-- Decimal representation of a natural number as a list of digit chars. -/
def natDigits (n : Nat) : List Char := if n = 0 then ['0'] else digitsAux 70 n

/-- One mixing step of the modelled key-derivation function. -/
def mixChar (acc : Nat) (c : Char) : Nat := (acc * 131 + c.toNat) % 18446744073709551616

/-- Modelled from the spec: the derived key of werkzeug's pbkdf2 — the
spec delegates password-hash algorithm internals to a standard library;
only "digest determined by salt and password" matters here. -/
def pbkdf2_raw (salt pw : String) : Nat := (salt.data ++ pw.data).foldl mixChar 5381

/-- Modelled from the spec: the digest part of the stored hash, a decimal
string derived from salt and password. -/
def pbkdf2_digest (salt pw : String) : String := String.mk (natDigits (pbkdf2_raw salt pw))

/-- Modelled from the spec: werkzeug `generate_password_hash` with
`method='pbkdf2:sha256'` — stores `method$salt$digest`, a salted hash,
never the plaintext. -/
def generate_password_hash (salt pw : String) : String :=
  methodTag ++ "$" ++ (salt ++ "$" ++ pbkdf2_digest salt pw)

/-- Split a character list at every `'$'`. -/
def splitOnDollar : List Char → List (List Char)
  | [] => [[]]
  | c :: rest =>
    if c = '$' then [] :: splitOnDollar rest
    else
      match splitOnDollar rest with
      | [] => [[c]]
      | h :: t => (c :: h) :: t

/-- Modelled from the spec: werkzeug `check_password_hash` — parses
`method$salt$digest` out of the stored string and recomputes the digest
from the candidate password. -/
def check_password_hash (stored pw : String) : Bool :=
  match splitOnDollar stored.data with
  | [m, s, d] => m == methodTag.data && d == (pbkdf2_digest (String.mk s) pw).data
  | _ => false

/-! ## Form validation (`forms.py`) -/

/-- The wtforms `DataRequired` validator: the field must be non-empty. -/
def dataRequired (s : String) : Bool := !s.data.isEmpty

/-- Modelled from the spec: the wtforms `Email` validator (external
`email_validator` library) — the email must be well-formed. -/
def emailWellFormed (s : String) : Bool := s.data.contains '@' && !s.data.isEmpty

/-- Modelled from the spec: the wtforms `URL` validator — the image URL
must be well-formed (an http or https scheme). -/
def urlWellFormed (s : String) : Bool :=
  s.data.take 7 == "http://".data || s.data.take 8 == "https://".data

/-- Submitted data of `RegisterForm`: email, password, name. -/
structure RegisterData where
  email : String
  password : String
  name : String
deriving DecidableEq, Repr

/-- Submitted data of `LoginForm`: email, password. -/
structure LoginData where
  email : String
  password : String
deriving DecidableEq, Repr

/-- Submitted data of `CreatePostForm`. -/
structure PostData where
  title : String
  subtitle : String
  img_url : String
  body : String
deriving DecidableEq, Repr

/-- Submitted data of `CommentForm`. -/
structure CommentData where
  comment : String
deriving DecidableEq, Repr

/-- `RegisterForm` validators: `DataRequired`+`Email` on email,
`DataRequired`+`Length(min=5)` on password, `DataRequired` on name. -/
def validateRegister (f : RegisterData) : Bool :=
  dataRequired f.email && emailWellFormed f.email &&
    dataRequired f.password && decide (5 ≤ f.password.length) && dataRequired f.name

/-- `LoginForm` validators: `DataRequired`+`Email` on email,
`DataRequired`+`Length(min=5)` on password. -/
def validateLogin (f : LoginData) : Bool :=
  dataRequired f.email && emailWellFormed f.email &&
    dataRequired f.password && decide (5 ≤ f.password.length)

/-- `CreatePostForm` validators: `DataRequired` on title, subtitle and
body, `DataRequired`+`URL` on the image URL. -/
def validatePost (f : PostData) : Bool :=
  dataRequired f.title && dataRequired f.subtitle &&
    dataRequired f.img_url && urlWellFormed f.img_url && dataRequired f.body

/-- `CommentForm` validators: `DataRequired` on the comment body. -/
def validateComment (f : CommentData) : Bool := dataRequired f.comment

/-! ## Request handlers (`main.py`)

Each handler takes the current store, the submitted form (`none` for a
GET request, so `validate_on_submit()` is false), and whatever the route
needs; `uid` is `current_user.id` where the route runs behind
`login_required`.  The werkzeug salt and today's date are ambient inputs
passed as parameters. -/

/-- `get_all_posts` (`GET /`): `BlogPost.query.all()`. -/
def get_all_posts (db : DB) : List BlogPost := db.posts

/-- `register` (`GET,POST /register`): on a validated submit, a user with
the same email causes a flash and a redirect to login; otherwise the new
user is stored with a salted password hash and logged in. -/
def register (db : DB) (session : Option Nat) (salt : String)
    (form : Option RegisterData) : HResult :=
  match form with
  | some f =>
    if validateRegister f then
      match db.users.find? (fun u => u.email == f.email) with
      | some _ =>
        { db := db, response := .redirectTo "login",
          flashes := ["You\x27ve already Sign up with that email. Please login"],
          session := session }
      | none =>
        let new_user : User :=
          { id := nextId (db.users.map (fun u => u.id)),
            email := f.email,
            password := generate_password_hash salt f.password,
            name := f.name }
        { db := { db with users := db.users ++ [new_user] },
          response := .redirectTo "get_all_posts", flashes := [],
          session := some new_user.id }
    else
      { db := db, response := .render "register.html", flashes := [], session := session }
  | none =>
    { db := db, response := .render "register.html", flashes := [], session := session }

/-- `login` (`GET,POST /login`): unknown email and failed hash check each
flash their own message and redirect back to login; success logs the
user in and redirects home. -/
def login (db : DB) (session : Option Nat) (form : Option LoginData) : HResult :=
  match form with
  | some f =>
    if validateLogin f then
      match db.users.find? (fun u => u.email == f.email) with
      | none =>
        { db := db, response := .redirectTo "login",
          flashes := ["This email doesn\x27t exist. Please try again"],
          session := session }
      | some user =>
        if check_password_hash user.password f.password then
          { db := db, response := .redirectTo "get_all_posts", flashes := [],
            session := some user.id }
        else
          { db := db, response := .redirectTo "login",
            flashes := ["Incorrect Password. Please Try again"],
            session := session }
    else
      { db := db, response := .render "login.html", flashes := [], session := session }
  | none =>
    { db := db, response := .render "login.html", flashes := [], session := session }

/-- `logout` (`GET /logout`): clears the session and redirects home. -/
def logout (db : DB) : HResult :=
  { db := db, response := .redirectTo "get_all_posts", flashes := [], session := none }

/-- `abort(403)` inside `admin_only`: the store is untouched. -/
def abort403 (db : DB) (uid : Nat) : HResult :=
  { db := db, response := .httpError 403, flashes := [], session := some uid }

/-- The `admin_only` decorator: if `current_user.id != 1` the request is
aborted with 403 and the wrapped handler is never invoked. -/
def admin_only {α : Type} (funct : DB → Nat → α → HResult) : DB → Nat → α → HResult :=
  fun db uid a => if uid ≠ 1 then abort403 db uid else funct db uid a

/-- The `login_required` decorator (flask-login): without a session the
request is redirected to the login view. -/
def login_required {α : Type} (funct : DB → Nat → α → HResult) :
    DB → Option Nat → α → HResult :=
  fun db session a =>
    match session with
    | none => { db := db, response := .redirectTo "login", flashes := [], session := none }
    | some uid => funct db uid a

/-- Current calendar date, the argument of `date.today().strftime`. -/
structure Today where
  year : Nat
  month : Nat
  day : Nat
deriving DecidableEq, Repr

/-- `%B`: full English month name (months are numbered from 1). -/
def monthName (m : Nat) : String :=
  ["January", "February", "March", "April", "May", "June", "July",
    "August", "September", "October", "November", "December"].getD (m - 1) ""

/-- `%d`: zero-padded day of the month. -/
def twoDigit (d : Nat) : String := if d < 10 then "0" ++ toString d else toString d

/-- `strftime("%B %d, %Y")`: the "Month DD, YYYY" format. -/
def formatDate (t : Today) : String :=
  monthName t.month ++ " " ++ twoDigit t.day ++ ", " ++ toString t.year

/-- `add_new_post` (`GET,POST /new-post`, behind `login_required` and
`admin_only`): on a validated submit, inserts a post dated today and
authored by the current user; the `unique=True` title column makes the
commit raise an IntegrityError when the title already exists. -/
def add_new_post (db : DB) (uid : Nat) (today : Today) (form : Option PostData) : HResult :=
  match form with
  | some f =>
    if validatePost f then
      if db.posts.any (fun p => p.title == f.title) then
        { db := db,
          response := .exception "IntegrityError: UNIQUE constraint failed: blog_posts.title",
          flashes := [], session := some uid }
      else
        let new_post : BlogPost :=
          { id := nextId (db.posts.map (fun p => p.id)),
            author_id := uid,
            title := f.title, subtitle := f.subtitle,
            date := formatDate today,
            body := f.body, img_url := f.img_url }
        { db := { db with posts := db.posts ++ [new_post] },
          response := .redirectTo "get_all_posts", flashes := [], session := some uid }
    else
      { db := db, response := .render "make-post.html", flashes := [], session := some uid }
  | none =>
    { db := db, response := .render "make-post.html", flashes := [], session := some uid }

/-- The field update a successful edit applies to the matching post:
title, subtitle, image URL and body are overwritten, nothing else. -/
def editFields (f : PostData) (post_id : Nat) (p : BlogPost) : BlogPost :=
  if p.id = post_id then
    { p with title := f.title, subtitle := f.subtitle, img_url := f.img_url, body := f.body }
  else p

/-- `edit_post` (`GET,POST /edit-post/<post_id>`, behind the same
decorators): loads the post (a missing id makes `post.title` raise), and
on a validated submit overwrites title/subtitle/img_url/body and
commits; the unique title column raises if the new title collides with
another post's. -/
def edit_post (db : DB) (uid : Nat) (post_id : Nat) (form : Option PostData) : HResult :=
  match db.posts.find? (fun p => p.id == post_id) with
  | none =>
    { db := db,
      response := .exception "AttributeError: NoneType object has no attribute title",
      flashes := [], session := some uid }
  | some _ =>
    match form with
    | some f =>
      if validatePost f then
        if db.posts.any (fun q => q.id != post_id && q.title == f.title) then
          { db := db,
            response := .exception "IntegrityError: UNIQUE constraint failed: blog_posts.title",
            flashes := [], session := some uid }
        else
          { db := { db with posts := db.posts.map (editFields f post_id) },
            response := .redirectTo "show_post", flashes := [], session := some uid }
      else
        { db := db, response := .render "make-post.html", flashes := [], session := some uid }
    | none =>
      { db := db, response := .render "make-post.html", flashes := [], session := some uid }

/-- `show_post` (`GET,POST /post/<post_id>`): renders the post; a
validated comment submit stores the comment when a session exists, and
otherwise flashes a notice and redirects to login. -/
def show_post (db : DB) (session : Option Nat) (post_id : Nat)
    (form : Option CommentData) : HResult :=
  let requested_post := db.posts.find? (fun p => p.id == post_id)
  match form with
  | some f =>
    if validateComment f then
      match session with
      | some uid =>
        let new_comment : Comment :=
          { id := nextId (db.comments.map (fun c => c.id)),
            author_id := uid,
            post_id := requested_post.map (fun p => p.id),
            text := f.comment }
        { db := { db with comments := db.comments ++ [new_comment] },
          response := .render "post.html", flashes := [], session := session }
      | none =>
        { db := db, response := .redirectTo "login",
          flashes := ["You need to log in or register to comment"],
          session := none }
    else
      { db := db, response := .render "post.html", flashes := [], session := session }
  | none =>
    { db := db, response := .render "post.html", flashes := [], session := session }

/-- `delete_post` (`GET /delete/<post_id>`, behind the same decorators):
deletes the row with that primary key and redirects home; a missing id
makes `db.session.delete(None)` raise.  The handler never touches the
comments table. -/
def delete_post (db : DB) (uid : Nat) (post_id : Nat) : HResult :=
  match db.posts.find? (fun p => p.id == post_id) with
  | none =>
    { db := db,
      response := .exception "UnmappedInstanceError: Class NoneType is not mapped",
      flashes := [], session := some uid }
  | some _ =>
    { db := { db with posts := db.posts.filter (fun p => p.id != post_id) },
      response := .redirectTo "get_all_posts", flashes := [], session := some uid }

/-- The `/new-post` route as deployed: handler behind both decorators. -/
def new_post_route (db : DB) (session : Option Nat) (a : Today × Option PostData) : HResult :=
  login_required (admin_only (fun db uid a => add_new_post db uid a.1 a.2)) db session a

/-- The `/edit-post/<post_id>` route as deployed. -/
def edit_post_route (db : DB) (session : Option Nat) (a : Nat × Option PostData) : HResult :=
  login_required (admin_only (fun db uid a => edit_post db uid a.1 a.2)) db session a

/-- The `/delete/<post_id>` route as deployed. -/
def delete_post_route (db : DB) (session : Option Nat) (post_id : Nat) : HResult :=
  login_required (admin_only delete_post) db session post_id

/-! ## Helper lemmas -/

lemma str_data_append (a b : String) : (a ++ b).data = a.data ++ b.data := by
  cases a
  cases b
  rfl

lemma splitOnDollar_ne_nil (l : List Char) : splitOnDollar l ≠ [] := by
  induction l with
  | nil => simp [splitOnDollar]
  | cons c rest ih =>
    by_cases hc : c = '$'
    · simp [splitOnDollar, hc]
    · cases hs : splitOnDollar rest with
      | nil => exact absurd hs ih
      | cons x xs => simp [splitOnDollar, hc, hs]

lemma splitOnDollar_cons_of_ne (c : Char) (l : List Char) (hc : c ≠ '$') :
    splitOnDollar (c :: l) = (c :: (splitOnDollar l).headI) :: (splitOnDollar l).tail := by
  cases hs : splitOnDollar l with
  | nil => exact absurd hs (splitOnDollar_ne_nil l)
  | cons x xs => simp [splitOnDollar, hc, hs]

lemma splitOnDollar_append (a l : List Char) (h : ∀ c ∈ a, c ≠ '$') :
    splitOnDollar (a ++ l) = (a ++ (splitOnDollar l).headI) :: (splitOnDollar l).tail := by
  induction a with
  | nil =>
    cases hs : splitOnDollar l with
    | nil => exact absurd hs (splitOnDollar_ne_nil l)
    | cons x xs => simp [hs]
  | cons c as ih =>
    have hc : c ≠ '$' := h c (by simp)
    have ih2 := ih (fun x hx => h x (by simp [hx]))
    rw [List.cons_append, splitOnDollar_cons_of_ne c (as ++ l) hc, ih2]
    simp

lemma splitOnDollar_three (m s d : List Char)
    (hm : ∀ c ∈ m, c ≠ '$') (hs : ∀ c ∈ s, c ≠ '$') (hd : ∀ c ∈ d, c ≠ '$') :
    splitOnDollar (m ++ '$' :: (s ++ '$' :: d)) = [m, s, d] := by
  have h1 : splitOnDollar d = [d] := by
    have h := splitOnDollar_append d [] hd
    simpa [splitOnDollar] using h
  have h2 : splitOnDollar ('$' :: d) = [[], d] := by simp [splitOnDollar, h1]
  have h3 := splitOnDollar_append s ('$' :: d) hs
  rw [h2] at h3
  simp only [List.headI, List.tail, List.append_nil] at h3
  have h4 : splitOnDollar ('$' :: (s ++ '$' :: d)) = [[], s, d] := by
    simp [splitOnDollar, h3]
  have h5 := splitOnDollar_append m ('$' :: (s ++ '$' :: d)) hm
  rw [h4] at h5
  simpa using h5

lemma digitsAux_ne_dollar (fuel : Nat) : ∀ n, ∀ c ∈ digitsAux fuel n, c ≠ '$' := by
  induction fuel with
  | zero => intro n c hc; simp [digitsAux] at hc
  | succ f ih =>
    intro n c hc
    by_cases hn : n = 0
    · simp [digitsAux, hn] at hc
    · simp only [digitsAux, if_neg hn, List.mem_append, List.mem_singleton] at hc
      rcases hc with hc | hc
      · exact ih _ c hc
      · subst hc
        have h10 : n % 10 < 10 := Nat.mod_lt _ (by norm_num)
        set r := n % 10 with hr
        interval_cases r <;> decide

lemma natDigits_ne_dollar (n : Nat) : ∀ c ∈ natDigits n, c ≠ '$' := by
  intro c hc
  by_cases hn : n = 0
  · simp [natDigits, hn] at hc
    subst hc
    decide
  · rw [natDigits, if_neg hn] at hc
    exact digitsAux_ne_dollar 70 n c hc

lemma pbkdf2_digest_ne_dollar (salt pw : String) :
    ∀ c ∈ (pbkdf2_digest salt pw).data, c ≠ '$' :=
  natDigits_ne_dollar (pbkdf2_raw salt pw)

/-- A stored hash produced by `generate_password_hash` passes
`check_password_hash` against the same password, as long as the salt
contains no separator character. -/
lemma check_generate (salt pw : String) (hsalt : ∀ c ∈ salt.data, c ≠ '$') :
    check_password_hash (generate_password_hash salt pw) pw = true := by
  have hm : ∀ c ∈ methodTag.data, c ≠ '$' := by decide
  have hd := pbkdf2_digest_ne_dollar salt pw
  have hdol : ("$" : String).data = ['$'] := rfl
  have hdata : (generate_password_hash salt pw).data
      = methodTag.data ++ '$' :: (salt.data ++ '$' :: (pbkdf2_digest salt pw).data) := by
    simp [generate_password_hash, str_data_append, hdol]
  rw [check_password_hash, hdata, splitOnDollar_three _ _ _ hm hsalt hd]
  simp

/-- A stored hash is never the plaintext password, provided the password
does not itself begin with the werkzeug method tag. -/
lemma generate_ne_plain (salt pw : String) (h : ∀ t, pw ≠ methodTag ++ "$" ++ t) :
    generate_password_hash salt pw ≠ pw := by
  intro he
  exact h (salt ++ "$" ++ pbkdf2_digest salt pw) he.symm

lemma find?_append_of_none {α : Type} (p : α → Bool) (l₁ l₂ : List α)
    (h : l₁.find? p = none) : (l₁ ++ l₂).find? p = l₂.find? p := by
  simp [List.find?_append, h]

end Blog

namespace Blog

/-- C1: A request to any admin-gated route (new-post, edit-post, delete)
by an authenticated user whose id is not 1 yields HTTP 403 with the
store untouched and the wrapped handler never run; the user with id 1
proceeds to the handler. -/
theorem admin_gate_blocks_non_admin (db : DB) (uid : Nat) (today : Today)
    (form : Option PostData) (pid : Nat) (form2 : Option PostData) (pid2 : Nat)
    (h : uid ≠ 1) :
    new_post_route db (some uid) (today, form) = abort403 db uid ∧
    edit_post_route db (some uid) (pid, form2) = abort403 db uid ∧
    delete_post_route db (some uid) pid2 = abort403 db uid ∧
    (new_post_route db (some uid) (today, form)).db = db ∧
    (edit_post_route db (some uid) (pid, form2)).db = db ∧
    (delete_post_route db (some uid) pid2).db = db ∧
    new_post_route db (some 1) (today, form) = add_new_post db 1 today form ∧
    edit_post_route db (some 1) (pid, form2) = edit_post db 1 pid form2 ∧
    delete_post_route db (some 1) pid2 = delete_post db 1 pid2 := by
  refine ⟨?_, ?_, ?_, ?_, ?_, ?_, ?_, ?_, ?_⟩ <;>
    simp [new_post_route, edit_post_route, delete_post_route, login_required,
      admin_only, abort403, h]

theorem admin_gate_blocks_non_admin_witness :
    new_post_route ⟨[], [], []⟩ (some 2) (⟨2026, 10, 12⟩, none) = abort403 ⟨[], [], []⟩ 2 ∧
    edit_post_route ⟨[], [], []⟩ (some 2) (1, none) = abort403 ⟨[], [], []⟩ 2 ∧
    delete_post_route ⟨[], [], []⟩ (some 2) 1 = abort403 ⟨[], [], []⟩ 2 ∧
    (new_post_route ⟨[], [], []⟩ (some 2) (⟨2026, 10, 12⟩, none)).db = ⟨[], [], []⟩ ∧
    (edit_post_route ⟨[], [], []⟩ (some 2) (1, none)).db = ⟨[], [], []⟩ ∧
    (delete_post_route ⟨[], [], []⟩ (some 2) 1).db = ⟨[], [], []⟩ ∧
    new_post_route ⟨[], [], []⟩ (some 1) (⟨2026, 10, 12⟩, none) =
      add_new_post ⟨[], [], []⟩ 1 ⟨2026, 10, 12⟩ none ∧
    edit_post_route ⟨[], [], []⟩ (some 1) (1, none) = edit_post ⟨[], [], []⟩ 1 1 none ∧
    delete_post_route ⟨[], [], []⟩ (some 1) 1 = delete_post ⟨[], [], []⟩ 1 1 :=
  admin_gate_blocks_non_admin ⟨[], [], []⟩ 2 ⟨2026, 10, 12⟩ none 1 none 1 (by decide)

/-- C2: A validated registration with an email some existing user
already has creates no second user (the whole store is unchanged),
flashes the notice and redirects to the login page. -/
theorem register_duplicate_email_rejected (db : DB) (session : Option Nat) (salt : String)
    (f : RegisterData) (hval : validateRegister f = true)
    (hdup : ∃ u ∈ db.users, u.email = f.email) :
    register db session salt (some f) =
      { db := db, response := .redirectTo "login",
        flashes := ["You\x27ve already Sign up with that email. Please login"],
        session := session } := by
  obtain ⟨u, hu, he⟩ := hdup
  have hsome : (db.users.find? (fun v => v.email == f.email)).isSome := by
    rw [List.find?_isSome]
    exact ⟨u, hu, by simp [he]⟩
  obtain ⟨w, hw⟩ := Option.isSome_iff_exists.mp hsome
  simp [register, hval, hw]

theorem register_duplicate_email_rejected_witness :
    register ⟨[⟨1, "a@x.com", "h", "Alice"⟩], [], []⟩ none "s1"
        (some ⟨"a@x.com", "longpw", "Bob"⟩) =
      ⟨⟨[⟨1, "a@x.com", "h", "Alice"⟩], [], []⟩, .redirectTo "login",
        ["You\x27ve already Sign up with that email. Please login"], none⟩ :=
  register_duplicate_email_rejected ⟨[⟨1, "a@x.com", "h", "Alice"⟩], [], []⟩ none "s1"
    ⟨"a@x.com", "longpw", "Bob"⟩ (by decide) ⟨⟨1, "a@x.com", "h", "Alice"⟩, by decide, rfl⟩

/-- C4: A validated login with an unknown email fails with the
no-such-user flash, one with a known email but failing hash check fails
with the bad-password flash; in both cases the store and the session are
unchanged (no session is created), and the two messages are distinct. -/
theorem login_failure_cases (db : DB) (session : Option Nat) (f : LoginData)
    (hval : validateLogin f = true) :
    (db.users.find? (fun u => u.email == f.email) = none →
      login db session (some f) =
        { db := db, response := .redirectTo "login",
          flashes := ["This email doesn\x27t exist. Please try again"], session := session }) ∧
    (∀ u, db.users.find? (fun v => v.email == f.email) = some u →
      check_password_hash u.password f.password = false →
      login db session (some f) =
        { db := db, response := .redirectTo "login",
          flashes := ["Incorrect Password. Please Try again"], session := session }) ∧
    ("This email doesn\x27t exist. Please try again" ≠
      "Incorrect Password. Please Try again") := by
  refine ⟨fun hn => ?_, fun u hu hc => ?_, by decide⟩
  · simp [login, hval, hn]
  · simp [login, hval, hu, hc]

theorem login_failure_cases_witness :
    (login ⟨[], [], []⟩ none (some ⟨"a@x.com", "secret"⟩) =
      ⟨⟨[], [], []⟩, .redirectTo "login",
        ["This email doesn\x27t exist. Please try again"], none⟩) ∧
    (login ⟨[⟨1, "a@x.com", generate_password_hash "s1" "secret", "Alice"⟩], [], []⟩ none
        (some ⟨"a@x.com", "wrongpw"⟩) =
      ⟨⟨[⟨1, "a@x.com", generate_password_hash "s1" "secret", "Alice"⟩], [], []⟩,
        .redirectTo "login", ["Incorrect Password. Please Try again"], none⟩) :=
  ⟨(login_failure_cases ⟨[], [], []⟩ none ⟨"a@x.com", "secret"⟩ (by decide)).1 (by decide),
    (login_failure_cases ⟨[⟨1, "a@x.com", generate_password_hash "s1" "secret", "Alice"⟩], [], []⟩
        none ⟨"a@x.com", "wrongpw"⟩ (by decide)).2.1
      ⟨1, "a@x.com", generate_password_hash "s1" "secret", "Alice"⟩ (by decide) (by decide)⟩

/-- C5: A validated comment submission on the post-detail page without a
session stores nothing (the whole store, comments table included, is
unchanged), flashes the notice and redirects to login. -/
theorem unauthenticated_comment_rejected (db : DB) (pid : Nat) (f : CommentData)
    (hval : validateComment f = true) :
    show_post db none pid (some f) =
      { db := db, response := .redirectTo "login",
        flashes := ["You need to log in or register to comment"], session := none } := by
  simp [show_post, hval]

theorem unauthenticated_comment_rejected_witness :
    show_post ⟨[], [⟨1, 1, "T", "S", "May 01, 2020", "B", "http://i.png"⟩], []⟩ none 1
        (some ⟨"nice"⟩) =
      ⟨⟨[], [⟨1, 1, "T", "S", "May 01, 2020", "B", "http://i.png"⟩], []⟩,
        .redirectTo "login", ["You need to log in or register to comment"], none⟩ :=
  unauthenticated_comment_rejected ⟨[], [⟨1, 1, "T", "S", "May 01, 2020", "B", "http://i.png"⟩], []⟩
    1 ⟨"nice"⟩ (by decide)

/-- C10: A registration or login submission whose password is shorter
than 5 characters, or whose email is malformed, is rejected by form
validation: the form page is re-rendered, no user is created and no
session is established. -/
theorem short_password_rejected (db : DB) (session : Option Nat) (salt : String)
    (f : RegisterData) (g : LoginData)
    (hf : f.password.length < 5 ∨ emailWellFormed f.email = false)
    (hg : g.password.length < 5 ∨ emailWellFormed g.email = false) :
    register db session salt (some f) =
      { db := db, response := .render "register.html", flashes := [], session := session } ∧
    login db session (some g) =
      { db := db, response := .render "login.html", flashes := [], session := session } := by
  have hvf : validateRegister f = false := by
    rcases hf with h | h
    · have hdec : decide (5 ≤ f.password.length) = false := by
        simp only [decide_eq_false_iff_not]
        omega
      simp [validateRegister, hdec]
    · simp [validateRegister, h]
  have hvg : validateLogin g = false := by
    rcases hg with h | h
    · have hdec : decide (5 ≤ g.password.length) = false := by
        simp only [decide_eq_false_iff_not]
        omega
      simp [validateLogin, hdec]
    · simp [validateLogin, h]
  exact ⟨by simp [register, hvf], by simp [login, hvg]⟩

theorem short_password_rejected_witness :
    register ⟨[], [], []⟩ none "s1" (some ⟨"a@x.com", "abc", "Al"⟩) =
      ⟨⟨[], [], []⟩, .render "register.html", [], none⟩ ∧
    login ⟨[], [], []⟩ none (some ⟨"ax.com", "secret"⟩) =
      ⟨⟨[], [], []⟩, .render "login.html", [], none⟩ :=
  short_password_rejected ⟨[], [], []⟩ none "s1" ⟨"a@x.com", "abc", "Al"⟩ ⟨"ax.com", "secret"⟩
    (by decide) (by decide)

end Blog

namespace Blog

/-- C3: A successful registration stores a salted hash of the password —
never the plaintext — and an immediate login with the same credentials
passes the hash check, is granted a session for the same user id and is
redirected home. -/
theorem register_login_roundtrip (db : DB) (session : Option Nat) (salt : String)
    (f : RegisterData)
    (hval : validateRegister f = true)
    (hfresh : db.users.find? (fun u => u.email == f.email) = none)
    (hsalt : ∀ c ∈ salt.data, c ≠ '$')
    (hplain : ∀ t, f.password ≠ methodTag ++ "$" ++ t) :
    (register db session salt (some f)).db.users =
      db.users ++ [⟨nextId (db.users.map (fun u => u.id)), f.email,
        generate_password_hash salt f.password, f.name⟩] ∧
    generate_password_hash salt f.password ≠ f.password ∧
    check_password_hash (generate_password_hash salt f.password) f.password = true ∧
    (register db session salt (some f)).session =
      some (nextId (db.users.map (fun u => u.id))) ∧
    (register db session salt (some f)).response = .redirectTo "get_all_posts" ∧
    login (register db session salt (some f)).db none (some ⟨f.email, f.password⟩) =
      { db := (register db session salt (some f)).db,
        response := .redirectTo "get_all_posts", flashes := [],
        session := some (nextId (db.users.map (fun u => u.id))) } := by
  have hreg : register db session salt (some f) =
      { db := { db with users := db.users ++ [⟨nextId (db.users.map (fun u => u.id)), f.email,
          generate_password_hash salt f.password, f.name⟩] },
        response := .redirectTo "get_all_posts", flashes := [],
        session := some (nextId (db.users.map (fun u => u.id))) } := by
    simp [register, hval, hfresh]
  have hvl : validateLogin ⟨f.email, f.password⟩ = true := by
    simp only [validateRegister, Bool.and_eq_true] at hval
    simp only [validateLogin, Bool.and_eq_true]
    tauto
  have hfind : (db.users ++ [(⟨nextId (db.users.map (fun u => u.id)), f.email,
      generate_password_hash salt f.password, f.name⟩ : User)]).find?
        (fun v => v.email == f.email) =
      some ⟨nextId (db.users.map (fun u => u.id)), f.email,
        generate_password_hash salt f.password, f.name⟩ := by
    rw [find?_append_of_none _ _ _ hfresh]
    simp
  have hchk := check_generate salt f.password hsalt
  refine ⟨by rw [hreg], generate_ne_plain salt f.password hplain, hchk,
    by rw [hreg], by rw [hreg], ?_⟩
  rw [hreg]
  simp [login, hvl, hfind, hchk]

theorem register_login_roundtrip_witness :
    (register ⟨[], [], []⟩ none "abcd1234" (some ⟨"a@x.com", "secret", "Alice"⟩)).db.users =
      [] ++ [⟨nextId (([] : List User).map (fun u => u.id)), "a@x.com",
        generate_password_hash "abcd1234" "secret", "Alice"⟩] ∧
    generate_password_hash "abcd1234" "secret" ≠ "secret" ∧
    check_password_hash (generate_password_hash "abcd1234" "secret") "secret" = true ∧
    (register ⟨[], [], []⟩ none "abcd1234" (some ⟨"a@x.com", "secret", "Alice"⟩)).session =
      some (nextId (([] : List User).map (fun u => u.id))) ∧
    (register ⟨[], [], []⟩ none "abcd1234"
      (some ⟨"a@x.com", "secret", "Alice"⟩)).response = .redirectTo "get_all_posts" ∧
    login (register ⟨[], [], []⟩ none "abcd1234"
        (some ⟨"a@x.com", "secret", "Alice"⟩)).db none (some ⟨"a@x.com", "secret"⟩) =
      { db := (register ⟨[], [], []⟩ none "abcd1234"
          (some ⟨"a@x.com", "secret", "Alice"⟩)).db,
        response := .redirectTo "get_all_posts", flashes := [],
        session := some (nextId (([] : List User).map (fun u => u.id))) } :=
  register_login_roundtrip ⟨[], [], []⟩ none "abcd1234" ⟨"a@x.com", "secret", "Alice"⟩
    (by decide) (by decide) (by decide)
    (by
      intro t ht
      have h2 : ("secret" : String).data.length = ((methodTag ++ "$") ++ t).data.length := by
        rw [← ht]
      rw [str_data_append, List.length_append] at h2
      have e1 : ("secret" : String).data.length = 6 := by decide
      have e2 : ((methodTag ++ "$") : String).data.length = 14 := by decide
      omega)

/-- C6: A successful edit of an existing post overwrites only its title,
subtitle, image URL and body; the post's id, author and creation date
are untouched, every other post is untouched, and the users and comments
tables are untouched. -/
theorem edit_post_frame (db : DB) (uid : Nat) (pid : Nat) (f : PostData) (post : BlogPost)
    (hval : validatePost f = true)
    (hfind : db.posts.find? (fun p => p.id == pid) = some post)
    (hti : db.posts.any (fun q => q.id != pid && q.title == f.title) = false) :
    (edit_post db uid pid (some f)).db.users = db.users ∧
    (edit_post db uid pid (some f)).db.comments = db.comments ∧
    (edit_post db uid pid (some f)).db.posts = db.posts.map (editFields f pid) ∧
    (∀ p : BlogPost, (editFields f pid p).id = p.id ∧
      (editFields f pid p).author_id = p.author_id ∧
      (editFields f pid p).date = p.date) ∧
    (∀ p : BlogPost, p.id ≠ pid → editFields f pid p = p) ∧
    (∀ p : BlogPost, p.id = pid → (editFields f pid p).title = f.title ∧
      (editFields f pid p).subtitle = f.subtitle ∧
      (editFields f pid p).img_url = f.img_url ∧
      (editFields f pid p).body = f.body) ∧
    (edit_post db uid pid (some f)).response = .redirectTo "show_post" := by
  have hedit : edit_post db uid pid (some f) =
      { db := { db with posts := db.posts.map (editFields f pid) },
        response := .redirectTo "show_post", flashes := [], session := some uid } := by
    simp [edit_post, hfind, hval, hti]
  refine ⟨by rw [hedit], by rw [hedit], by rw [hedit], ?_, ?_, ?_, by rw [hedit]⟩
  · intro p
    by_cases h : p.id = pid <;> simp [editFields, h]
  · intro p h
    simp [editFields, h]
  · intro p h
    simp [editFields, h]

theorem edit_post_frame_witness :
    (edit_post ⟨[], [⟨1, 1, "T", "S", "May 01, 2020", "B", "http://i.png"⟩], []⟩ 1 1
      (some ⟨"T2", "S2", "https://j.png", "B2"⟩)).db.users = [] ∧
    (edit_post ⟨[], [⟨1, 1, "T", "S", "May 01, 2020", "B", "http://i.png"⟩], []⟩ 1 1
      (some ⟨"T2", "S2", "https://j.png", "B2"⟩)).db.comments = [] ∧
    (edit_post ⟨[], [⟨1, 1, "T", "S", "May 01, 2020", "B", "http://i.png"⟩], []⟩ 1 1
        (some ⟨"T2", "S2", "https://j.png", "B2"⟩)).db.posts =
      [⟨1, 1, "T", "S", "May 01, 2020", "B", "http://i.png"⟩].map
        (editFields ⟨"T2", "S2", "https://j.png", "B2"⟩ 1) ∧
    (∀ p : BlogPost, (editFields ⟨"T2", "S2", "https://j.png", "B2"⟩ 1 p).id = p.id ∧
      (editFields ⟨"T2", "S2", "https://j.png", "B2"⟩ 1 p).author_id = p.author_id ∧
      (editFields ⟨"T2", "S2", "https://j.png", "B2"⟩ 1 p).date = p.date) ∧
    (∀ p : BlogPost, p.id ≠ 1 → editFields ⟨"T2", "S2", "https://j.png", "B2"⟩ 1 p = p) ∧
    (∀ p : BlogPost, p.id = 1 →
      (editFields ⟨"T2", "S2", "https://j.png", "B2"⟩ 1 p).title = "T2" ∧
      (editFields ⟨"T2", "S2", "https://j.png", "B2"⟩ 1 p).subtitle = "S2" ∧
      (editFields ⟨"T2", "S2", "https://j.png", "B2"⟩ 1 p).img_url = "https://j.png" ∧
      (editFields ⟨"T2", "S2", "https://j.png", "B2"⟩ 1 p).body = "B2") ∧
    (edit_post ⟨[], [⟨1, 1, "T", "S", "May 01, 2020", "B", "http://i.png"⟩], []⟩ 1 1
      (some ⟨"T2", "S2", "https://j.png", "B2"⟩)).response = .redirectTo "show_post" :=
  edit_post_frame ⟨[], [⟨1, 1, "T", "S", "May 01, 2020", "B", "http://i.png"⟩], []⟩ 1 1
    ⟨"T2", "S2", "https://j.png", "B2"⟩ ⟨1, 1, "T", "S", "May 01, 2020", "B", "http://i.png"⟩
    (by decide) (by decide) (by decide)

/-- C7: A validated post creation with a fresh title appends exactly one
post whose date is today's date in the "Month DD, YYYY" format and whose
author is the session's user; a validated creation whose title already
exists raises the uniqueness violation and stores nothing; an invalid
form stores nothing. -/
theorem add_new_post_spec (db : DB) (uid : Nat) (today : Today) (f : PostData)
    (hval : validatePost f = true) :
    (db.posts.any (fun p => p.title == f.title) = false →
      add_new_post db uid today (some f) =
        { db := { db with posts := db.posts ++
            [{ id := nextId (db.posts.map (fun p => p.id)), author_id := uid,
               title := f.title, subtitle := f.subtitle, date := formatDate today,
               body := f.body, img_url := f.img_url }] },
          response := .redirectTo "get_all_posts", flashes := [], session := some uid } ∧
      formatDate today =
        monthName today.month ++ " " ++ twoDigit today.day ++ ", " ++ toString today.year) ∧
    (db.posts.any (fun p => p.title == f.title) = true →
      add_new_post db uid today (some f) =
        { db := db,
          response := .exception "IntegrityError: UNIQUE constraint failed: blog_posts.title",
          flashes := [], session := some uid }) ∧
    (∀ g : PostData, validatePost g = false →
      add_new_post db uid today (some g) =
        { db := db, response := .render "make-post.html", flashes := [],
          session := some uid }) := by
  refine ⟨fun h => ⟨by simp [add_new_post, hval, h], rfl⟩,
    fun h => by simp [add_new_post, hval, h],
    fun g hg => by simp [add_new_post, hg]⟩

theorem add_new_post_spec_witness :
    add_new_post ⟨[], [⟨1, 1, "T", "S", "May 01, 2020", "B", "http://i.png"⟩], []⟩ 1
        ⟨2026, 10, 12⟩ (some ⟨"T2", "S2", "https://j.png", "B2"⟩) =
      { db := ⟨[], [⟨1, 1, "T", "S", "May 01, 2020", "B", "http://i.png"⟩] ++
          [⟨2, 1, "T2", "S2", formatDate ⟨2026, 10, 12⟩, "B2", "https://j.png"⟩], []⟩,
        response := .redirectTo "get_all_posts", flashes := [], session := some 1 } ∧
    add_new_post ⟨[], [⟨1, 1, "T", "S", "May 01, 2020", "B", "http://i.png"⟩], []⟩ 1
        ⟨2026, 10, 12⟩ (some ⟨"T", "S2", "https://j.png", "B2"⟩) =
      { db := ⟨[], [⟨1, 1, "T", "S", "May 01, 2020", "B", "http://i.png"⟩], []⟩,
        response := .exception "IntegrityError: UNIQUE constraint failed: blog_posts.title",
        flashes := [], session := some 1 } ∧
    add_new_post ⟨[], [⟨1, 1, "T", "S", "May 01, 2020", "B", "http://i.png"⟩], []⟩ 1
        ⟨2026, 10, 12⟩ (some ⟨"", "S2", "https://j.png", "B2"⟩) =
      { db := ⟨[], [⟨1, 1, "T", "S", "May 01, 2020", "B", "http://i.png"⟩], []⟩,
        response := .render "make-post.html", flashes := [], session := some 1 } :=
  ⟨((add_new_post_spec ⟨[], [⟨1, 1, "T", "S", "May 01, 2020", "B", "http://i.png"⟩], []⟩ 1
      ⟨2026, 10, 12⟩ ⟨"T2", "S2", "https://j.png", "B2"⟩ (by decide)).1 (by decide)).1,
    (add_new_post_spec ⟨[], [⟨1, 1, "T", "S", "May 01, 2020", "B", "http://i.png"⟩], []⟩ 1
      ⟨2026, 10, 12⟩ ⟨"T", "S2", "https://j.png", "B2"⟩ (by decide)).2.1 (by decide),
    (add_new_post_spec ⟨[], [⟨1, 1, "T", "S", "May 01, 2020", "B", "http://i.png"⟩], []⟩ 1
      ⟨2026, 10, 12⟩ ⟨"T2", "S2", "https://j.png", "B2"⟩ (by decide)).2.2
      ⟨"", "S2", "https://j.png", "B2"⟩ (by decide)⟩

/-- C8: On a post id with no post, the code does not fail with NotFound:
`delete_post` calls `db.session.delete(None)`, which raises an unhandled
exception, and `show_post` proceeds to render the detail template with
no post; neither response is an HTTP 404. -/
theorem missing_post_no_notfound :
    ((⟨[], [], []⟩ : DB).posts.find? (fun p => p.id == 7) = none) ∧
    delete_post ⟨[], [], []⟩ 1 7 =
      ⟨⟨[], [], []⟩, .exception "UnmappedInstanceError: Class NoneType is not mapped",
        [], some 1⟩ ∧
    show_post ⟨[], [], []⟩ none 7 none = ⟨⟨[], [], []⟩, .render "post.html", [], none⟩ ∧
    (delete_post ⟨[], [], []⟩ 1 7).response ≠ .httpError 404 ∧
    (show_post ⟨[], [], []⟩ none 7 none).response ≠ .httpError 404 := by
  refine ⟨rfl, by decide, by decide, by decide, by decide⟩

/-- C9: Deleting an existing post removes exactly the rows with that id
from the posts table — it no longer appears in the home-page listing —
while the comments and users tables are untouched (orphaned comment rows
remain), and the response redirects home. -/
theorem delete_post_frame (db : DB) (uid : Nat) (pid : Nat) (post : BlogPost)
    (hfind : db.posts.find? (fun p => p.id == pid) = some post) :
    (delete_post db uid pid).db.posts = db.posts.filter (fun p => p.id != pid) ∧
    (∀ p ∈ get_all_posts (delete_post db uid pid).db, p.id ≠ pid) ∧
    (delete_post db uid pid).db.comments = db.comments ∧
    (delete_post db uid pid).db.users = db.users ∧
    (delete_post db uid pid).response = .redirectTo "get_all_posts" := by
  have hd : delete_post db uid pid =
      { db := { db with posts := db.posts.filter (fun p => p.id != pid) },
        response := .redirectTo "get_all_posts", flashes := [], session := some uid } := by
    simp [delete_post, hfind]
  refine ⟨by rw [hd], ?_, by rw [hd], by rw [hd], by rw [hd]⟩
  rw [hd]
  intro p hp
  simp only [get_all_posts, List.mem_filter, bne_iff_ne] at hp
  exact hp.2

theorem delete_post_frame_witness :
    (delete_post ⟨[⟨1, "a@x.com", "h", "Alice"⟩],
        [⟨1, 1, "T", "S", "May 01, 2020", "B", "http://i.png"⟩],
        [⟨1, 1, some 1, "nice"⟩]⟩ 1 1).db.posts =
      [⟨1, 1, "T", "S", "May 01, 2020", "B", "http://i.png"⟩].filter (fun p => p.id != 1) ∧
    (∀ p ∈ get_all_posts (delete_post ⟨[⟨1, "a@x.com", "h", "Alice"⟩],
        [⟨1, 1, "T", "S", "May 01, 2020", "B", "http://i.png"⟩],
        [⟨1, 1, some 1, "nice"⟩]⟩ 1 1).db, p.id ≠ 1) ∧
    (delete_post ⟨[⟨1, "a@x.com", "h", "Alice"⟩],
        [⟨1, 1, "T", "S", "May 01, 2020", "B", "http://i.png"⟩],
        [⟨1, 1, some 1, "nice"⟩]⟩ 1 1).db.comments = [⟨1, 1, some 1, "nice"⟩] ∧
    (delete_post ⟨[⟨1, "a@x.com", "h", "Alice"⟩],
        [⟨1, 1, "T", "S", "May 01, 2020", "B", "http://i.png"⟩],
        [⟨1, 1, some 1, "nice"⟩]⟩ 1 1).db.users = [⟨1, "a@x.com", "h", "Alice"⟩] ∧
    (delete_post ⟨[⟨1, "a@x.com", "h", "Alice"⟩],
        [⟨1, 1, "T", "S", "May 01, 2020", "B", "http://i.png"⟩],
        [⟨1, 1, some 1, "nice"⟩]⟩ 1 1).response = .redirectTo "get_all_posts" :=
  delete_post_frame ⟨[⟨1, "a@x.com", "h", "Alice"⟩],
    [⟨1, 1, "T", "S", "May 01, 2020", "B", "http://i.png"⟩],
    [⟨1, 1, some 1, "nice"⟩]⟩ 1 1 ⟨1, 1, "T", "S", "May 01, 2020", "B", "http://i.png"⟩
    (by decide)

end Blog
